import Mathlib

/-!
Verification development for the SatieLang audio-generation servers.

The repository consists of three Flask servers:
  * `audio_generation_server.py` (modelled in namespace `AudioGen`),
  * `audioldm2_server.py`        (modelled in namespace `ALDM`),
  * `test_audio_server.py`       (modelled in namespace `TestSrv`).

The shallow embedding below models request handling as pure functions from
a typed JSON body plus an environment (configuration, credential sources,
and the opaque external collaborators: the diffusion model, the remote
sound API, the resampler, and the trigonometric/noise kernels of numpy)
to an HTTP response value.

Conventions of the embedding:
  * floating-point sample values are modelled as exact rationals;
  * `np.sin`, `np.pi` and `np.random.normal` are opaque numeric
    collaborators, passed in as components of a `SynthEnv`;
  * division follows the Lean convention `x / 0 = 0`; the one place where
    the Python code can actually divide by zero (the unguarded test-path
    normalization) is flagged in comments where it matters;
  * a JSON body is modelled as a record of optional typed fields (the
    fields the handlers read); a `none` field means the key is absent.
-/

/-- Substring test on lists of characters: `subList n h` is true iff the
list `n` occurs contiguously inside `h`.  Models the Python expression
`needle in haystack` on strings. -/
def subList (needle : List Char) : List Char → Bool
  | [] => needle.isEmpty
  | c :: t => needle.isPrefixOf (c :: t) || subList needle t

/-- `containsSub hay needle` models Python's `needle in hay` for strings. -/
def containsSub (hay needle : String) : Bool :=
  subList needle.data hay.data

/-- Python's `str.lower()` (restricted to ASCII case folding, which is all
the provider and keyword strings use). -/
def pyLower (s : String) : String :=
  String.mk (s.data.map Char.toLower)

/-- A Python string-or-None value is falsy when it is `None` or `""`. -/
def falsy (a : Option String) : Bool :=
  match a with
  | none => true
  | some s => s = ""

/-- Collapse a falsy Python string-or-None value to `none`. -/
def truthyOpt (a : Option String) : Option String :=
  match a with
  | none => none
  | some s => if s = "" then none else some s

/-- Python's `a or b` on optional strings, where both `None` and the empty
string are falsy, normalized so that a falsy result is `none`.  The
credential chains of both servers only ever test the resolved value for
truthiness (`if not api_key: raise`), so this normalization is
observationally faithful. -/
def pyOr (a b : Option String) : Option String :=
  match truthyOpt a with
  | some s => some s
  | none => truthyOpt b

/-- Peak absolute amplitude of a sample buffer: `np.max(np.abs(xs))`
(with the convention that the empty buffer has peak 0; every sample is a
real number so all compared values are nonnegative). -/
def peakAbs (xs : List ℚ) : ℚ :=
  xs.foldr (fun x m => max |x| m) 0

/-- `np.linspace(0, d, n)` at index `i`: `d * i / (n - 1)`.
For `n = 1` numpy returns `[0.0]`, which the `x / 0 = 0` convention
reproduces. -/
def linspaceAt (d : ℚ) (n i : ℕ) : ℚ :=
  d * (i : ℚ) / ((n : ℚ) - 1)

/-- The fade-in/fade-out envelope of the test generators at index `i`:
`envelope = np.ones(n)`, then `envelope[:fadeLen] = np.linspace(0,1,fadeLen)`
and then `envelope[-fadeLen:] = np.linspace(1,0,fadeLen)`.  The second
assignment overwrites the first on overlap, so the fade-out region is
checked first.  (In the servers `fadeLen = rate/10 ≤ n = 3*rate`, so the
regions never overlap.) -/
def envelopeAt (fadeLen n i : ℕ) : ℚ :=
  if n - fadeLen ≤ i then 1 - ((i - (n - fadeLen) : ℕ) : ℚ) / ((fadeLen : ℚ) - 1)
  else if i < fadeLen then (i : ℚ) / ((fadeLen : ℚ) - 1)
  else 1

/-- The AudioLDM2 branches' normalization
(`audio_generation_server.py:191-194`, `audioldm2_server.py:253-256`):
`max_val = np.abs(audio).max(); if max_val > 0: audio = audio/max_val*0.95`. -/
def audioldm2Normalize (xs : List ℚ) : List ℚ :=
  let m := peakAbs xs
  if 0 < m then xs.map (fun x => x / m * (19/20)) else xs

/-- The test generators' normalization
(`audio_generation_server.py:328`, `test_audio_server.py:61`):
`audio = audio / np.max(np.abs(audio)) * 0.9` — scaled to 0.9 of full
scale, with no guard against a zero peak. -/
def testNormalize (xs : List ℚ) : List ℚ :=
  xs.map (fun x => x / peakAbs xs * (9/10))

/-- Modelled from the spec: `normalize(samples) -> samples`: divide by
peak absolute value (no-op if peak is zero), scale to 0.95 of full scale.
Stated only to compare against the normalizations found in the code. -/
def specNormalize (xs : List ℚ) : List ℚ :=
  if peakAbs xs = 0 then xs else xs.map (fun x => x / peakAbs xs * (19/20))

/-- The opaque numeric collaborators of the sine-wave synthesizers:
`np.sin`, `np.pi` and the per-index draw of `np.random.normal(0, 0.01, n)`. -/
structure SynthEnv where
  sinv : ℚ → ℚ
  noisev : ℕ → ℚ
  piv : ℚ

/-- Duration of the test generators' clips: `duration = 3.0`. -/
def testDuration : ℚ := 3

/-- `int(sample_rate * duration)` for the 3-second test clips.  For a
machine-size integer rate the float product `sample_rate * 3.0` is exact,
so the truncation is exactly `rate * 3`. -/
def numSamples (rate : ℕ) : ℕ :=
  rate * 3

/-- One raw (pre-normalization) sample of the shared test-waveform block
(`audio_generation_server.py:308-325` and the identical copy at
`test_audio_server.py:41-58`):
`audio = sin(2πft)*0.3 + sin(2πf·2t)*0.1 + sin(2πf·0.5t)*0.1 + noise`,
then `audio *= envelope` with `fade_len = int(0.1*sample_rate)`. -/
def rawSampleAt (s : SynthEnv) (frequency : ℚ) (rate n i : ℕ) : ℚ :=
  let t := linspaceAt testDuration n i
  (s.sinv (2 * s.piv * frequency * t) * (3/10)
    + s.sinv (2 * s.piv * frequency * 2 * t) * (1/10)
    + s.sinv (2 * s.piv * frequency * (1/2) * t) * (1/10)
    + s.noisev i)
    * envelopeAt (rate / 10) n i

/-- The full raw 3-second composite waveform of the test generators. -/
def sineTestWave (s : SynthEnv) (frequency : ℚ) (rate : ℕ) : List ℚ :=
  let n := numSamples rate
  (List.range n).map (fun i => rawSampleAt s frequency rate n i)

/-- A typed model of the JSON request bodies the handlers read.
A `none` field models an absent key. -/
structure Json where
  prompt : Option String := none
  provider : Option String := none
  seed : Option Int := none
  sample_rate : Option ℕ := none
  num_options : Option ℕ := none
  duration_seconds : Option ℚ := none
  prompt_influence : Option ℚ := none
  looping : Option Bool := none
deriving DecidableEq

/-- The set of keys present in a JSON body (used to model Python's
`f(prompt, seed, **data)` duplicate-keyword-argument check). -/
def jsonKeys (d : Json) : List String :=
  (if d.prompt.isSome then ["prompt"] else [])
    ++ (if d.provider.isSome then ["provider"] else [])
    ++ (if d.seed.isSome then ["seed"] else [])
    ++ (if d.sample_rate.isSome then ["sample_rate"] else [])
    ++ (if d.num_options.isSome then ["num_options"] else [])
    ++ (if d.duration_seconds.isSome then ["duration_seconds"] else [])
    ++ (if d.prompt_influence.isSome then ["prompt_influence"] else [])
    ++ (if d.looping.isSome then ["looping"] else [])

/-- Models CPython's duplicate-argument check for a call
`f(a₁, …, aₖ, **data)` where `names` are the parameter names bound by the
positional arguments: the call raises
`TypeError: f() got multiple values for argument '<name>'` iff some
positional parameter name is also a key of `data`. -/
def duplicatePositional (names : List String) (d : Json) : Option String :=
  names.find? (fun k => (jsonKeys d).contains k)

/-- An entry of a `/generate_multiple` response: the per-variation seed
written into the request (`data['seed'] = i`) and the samples of the
produced WAV (base64 transport encoding omitted: it is a bijection on
byte strings). -/
structure MultiEntry where
  seedParam : Int
  samples : List ℚ
deriving DecidableEq

/-- An HTTP response of the servers, abstracted to the shapes the code
produces: a WAV attachment (samples handed to the encoder, header rate,
download name), a JSON error with a status code, a `/generate_multiple`
success JSON, or an exception that escapes the handler (Flask then emits
its own 500 page). -/
inductive Resp
  | wav (samples : List ℚ) (rate : ℕ) (name : String)
  | err (status : ℕ) (msg : String)
  | multi (prompt : String) (provider : Option String) (entries : List MultiEntry) (rate : ℕ)
  | unhandled (msg : String)
deriving DecidableEq

/-- True iff the response is a JSON error produced by the handler. -/
def Resp.isErr : Resp → Bool
  | .err _ _ => true
  | _ => false

/-- True iff the response is a successful WAV attachment. -/
def Resp.isWav : Resp → Bool
  | .wav _ _ _ => true
  | _ => false

/-- True iff the response is a successful multi-generation JSON. -/
def Resp.isMulti : Resp → Bool
  | .multi _ _ _ _ => true
  | _ => false

/-- The HTTP status code of a response (success paths are 200; an
exception that escapes the handler becomes Flask's 500 page). -/
def Resp.statusOf : Resp → ℕ
  | .wav _ _ _ => 200
  | .err s _ => s
  | .multi _ _ _ _ => 200
  | .unhandled _ => 500

/-- Result of one call to an ElevenLabs adapter: the adapter's outcome and
whether a network request to the remote API was attempted. -/
structure ElevenOut where
  result : Except String (List ℚ)
  networkCalled : Bool

namespace TestSrv

/-- Frequency selection of `test_audio_server.py:32-39`: keyword matches
on the lowercased prompt choose a base frequency offset by the seed. -/
def testFrequency (prompt : String) (seed : Int) : ℚ :=
  let p := pyLower prompt
  if containsSub p "river" then 200 + (seed : ℚ) * 50
  else if containsSub p "ocean" then 150 + (seed : ℚ) * 30
  else if containsSub p "bird" then 1000 + (seed : ℚ) * 200
  else 440 + (seed : ℚ) * 100

/-- The `/generate` handler of `test_audio_server.py:20-79`.  A missing
prompt defaults to the string `'test'` and there is no emptiness check,
so no request ever gets a 400 validation error.  Two degenerate numpy
error paths are caught by the handler's `except` and become 500 errors:
with `fade_len = int(0.1*rate) = 0` but a non-empty buffer (rates 1-9)
the assignment `envelope[-0:] = np.linspace(1, 0, 0)` targets the whole
array and raises a broadcast ValueError; with `rate = 0` the buffer is
empty (the envelope assignments are then 0-to-0 and pass) and
`np.max(np.abs(audio))` raises the zero-size-reduction ValueError.
Every rate ≥ 10 produces a WAV response. -/
def generate_audio (s : SynthEnv) (data : Json) : Resp :=
  let prompt := data.prompt.getD "test"
  let seed := data.seed.getD 0
  let rate := data.sample_rate.getD 44100
  let n := numSamples rate
  let freq := testFrequency prompt seed
  if rate / 10 = 0 ∧ 0 < n then
    Resp.err 500 ("could not broadcast input array from shape (0,) into shape ("
      ++ toString n ++ ",)")
  else if n = 0 then
    Resp.err 500 "zero-size array to reduction operation maximum which has no identity"
  else
    Resp.wav (testNormalize (sineTestWave s freq rate)) rate
      ("test_" ++ toString seed ++ ".wav")

end TestSrv

namespace AudioGen

/-- The environment of `audio_generation_server.py`: configuration,
credential sources, and the opaque external collaborators. -/
structure Env where
  /-- `config["elevenlabs"]["api_key"]` (default `""`). -/
  configKey : String
  /-- Key recovered from Unity's credential file, if any (`get_unity_api_key`). -/
  unityKey : Option String
  /-- The `X-ElevenLabs-Key` request header, if present. -/
  headerKey : Option String
  /-- Status code of the remote sound-generation call. -/
  remoteStatus : ℕ
  /-- Whether the remote response body is non-empty. -/
  remoteNonempty : Bool
  /-- The samples pydub decodes from the remote MP3 payload (opaque). -/
  remoteDecoded : List ℚ
  /-- The native rate of the decoded remote audio. -/
  remoteOrigSr : ℕ
  /-- The opaque resampler (librosa / pydub frame-rate conversion). -/
  resampleFn : List ℚ → ℕ → ℕ → List ℚ
  /-- The opaque diffusion model: seed ↦ mono samples at 16 kHz. -/
  modelAudio : Int → List ℚ
  /-- `config.get("default_provider", "audioldm2")`. -/
  defaultProvider : String
  /-- numpy's trigonometric/noise kernels for `generate_test_audio`. -/
  synth : SynthEnv

/-- Frequency selection of `generate_test_audio`
(`audio_generation_server.py:296-306`); unlike `test_audio_server.py` it
also matches `water`, `wave`, `chirp` and `wind`. -/
def testFrequency (prompt : String) (seed : Int) : ℚ :=
  let p := pyLower prompt
  if containsSub p "river" || containsSub p "water" then 200 + (seed : ℚ) * 50
  else if containsSub p "ocean" || containsSub p "wave" then 150 + (seed : ℚ) * 30
  else if containsSub p "bird" || containsSub p "chirp" then 1000 + (seed : ℚ) * 200
  else if containsSub p "wind" then 300 + (seed : ℚ) * 40
  else 440 + (seed : ℚ) * 100

/-- `AudioGenerationServer.generate_test_audio`
(`audio_generation_server.py:290-335`): synthesize the 3-second composite
waveform, normalize to 0.9 of full scale, and hand the samples together
with the requested rate to the WAV encoder. -/
def generate_test_audio (s : SynthEnv) (prompt : String) (seed : Int)
    (kwRate : Option ℕ) : List ℚ × ℕ :=
  let rate := kwRate.getD 44100
  let freq := testFrequency prompt seed
  (testNormalize (sineTestWave s freq rate), rate)

/-- The ElevenLabs key available after start-up initialization
(`initialize_elevenlabs`, lines 106-120): the configured key if truthy,
else the Unity credential-file key. -/
def startupKey (env : Env) : Option String :=
  pyOr (if env.configKey = "" then none else some env.configKey) env.unityKey

/-- `AudioGenerationServer.generate_with_elevenlabs`
(`audio_generation_server.py:212-288`): resolve the key
(per-request override `or` start-up key, with a re-initialization retry
that consults the same sources), then POST to the remote API, reject
non-200 statuses and empty payloads, and decode the MP3 reply with pydub
at the requested frame rate.  No normalization is applied to the decoded
samples.  The second component records whether a network request was
attempted. -/
def generate_with_elevenlabs (env : Env) (apiKeyOverride : Option String)
    (kwRate : Option ℕ) : ElevenOut :=
  match pyOr apiKeyOverride (startupKey env) with
  | none => ⟨.error "Eleven Labs API key not configured", false⟩
  | some _ =>
    if env.remoteStatus ≠ 200 then
      ⟨.error ("Eleven Labs API error: " ++ toString env.remoteStatus), true⟩
    else if !env.remoteNonempty then
      ⟨.error "Eleven Labs returned empty audio data", true⟩
    else
      let rate := kwRate.getD 44100
      let samples :=
        if env.remoteOrigSr = rate then env.remoteDecoded
        else env.resampleFn env.remoteDecoded env.remoteOrigSr rate
      ⟨.ok samples, true⟩

/-- `AudioGenerationServer.generate_with_audioldm2`
(`audio_generation_server.py:158-210`): lazily initialize the model on
first use, generate at 16 kHz, normalize to 0.95 with a zero-peak guard,
and resample when a different rate is requested.  (Model initialization
and inference are the opaque `modelAudio` collaborator.) -/
def generate_with_audioldm2 (env : Env) (_prompt : String) (seed : Int)
    (kwRate : Option ℕ) : List ℚ × ℕ :=
  let rate := kwRate.getD 16000
  let norm := audioldm2Normalize (env.modelAudio seed)
  (if rate ≠ 16000 then env.resampleFn norm 16000 rate else norm, rate)

/-- The TypeError message for `f(prompt, seed, **data)` when `data` also
holds one of the positionally bound keys. -/
def dupMsg (fname arg : String) : String :=
  fname ++ "() got multiple values for argument \x27" ++ arg ++ "\x27"

/-- The `/generate` handler (`audio_generation_server.py:364-401`).
The ElevenLabs branch strips `prompt` from the forwarded body, but the
test and AudioLDM2 branches forward the whole body as keyword arguments
while also passing `prompt` and `seed` positionally; since the body
necessarily holds a `prompt` key past the validation check, those calls
raise a duplicate-argument TypeError which the handler turns into a 500
error.  Unknown providers fall into the final AudioLDM2 default branch. -/
def generate_audio (env : Env) (data : Json) : Resp :=
  let prompt := data.prompt.getD ""
  let provider := data.provider.getD env.defaultProvider
  let seed := data.seed.getD 0
  if prompt = "" then .err 400 "No prompt provided"
  else if provider = "elevenlabs" then
    match (generate_with_elevenlabs env env.headerKey data.sample_rate).result with
    | .error m => .err 500 m
    | .ok s => .wav s (data.sample_rate.getD 44100)
        ("generated_" ++ provider ++ "_" ++ toString seed ++ ".wav")
  else if provider = "test" then
    match duplicatePositional ["prompt", "seed"] data with
    | some a => .err 500 (dupMsg "generate_test_audio" a)
    | none =>
      let sr := generate_test_audio env.synth prompt seed data.sample_rate
      .wav sr.1 sr.2 ("generated_" ++ provider ++ "_" ++ toString seed ++ ".wav")
  else
    match duplicatePositional ["prompt", "seed"] data with
    | some a => .err 500 (dupMsg "generate_with_audioldm2" a)
    | none =>
      let sr := generate_with_audioldm2 env prompt seed data.sample_rate
      .wav sr.1 sr.2 ("generated_" ++ provider ++ "_" ++ toString seed ++ ".wav")

/-- One iteration of the `/generate_multiple` loop
(`audio_generation_server.py:420-440`) at variation index `i`: the body is
updated with `data['seed'] = i` (and, for ElevenLabs, the incremented
`prompt_influence`), then the provider's adapter is invoked.
For ElevenLabs the prompt key is removed before the call, so no duplicate
arises; for the other two branches the duplicated `prompt`/`seed` keys
raise the TypeError.  Known divergence: the code mutates `data` in place,
so the `prompt_influence` increments compound across iterations, while
this model derives each iteration's value from the original body; the
difference is immaterial here because the modelled remote output does not
depend on `prompt_influence`. -/
def multiStep (env : Env) (data : Json) (provider prompt : String) (i : ℕ) :
    Except String MultiEntry :=
  let d : Json := { data with seed := some (i : Int) }
  if provider = "elevenlabs" then
    let pinf : ℚ := min 1 (data.prompt_influence.getD (3/10) + (i : ℚ) * (1/10))
    let d := { d with prompt_influence := some pinf }
    match (generate_with_elevenlabs env none d.sample_rate).result with
    | .error m => .error m
    | .ok s => .ok ⟨(i : Int), s⟩
  else if provider = "test" then
    match duplicatePositional ["prompt", "seed"] d with
    | some a => .error (dupMsg "generate_test_audio" a)
    | none => .ok ⟨(i : Int), (generate_test_audio env.synth prompt (i : Int) d.sample_rate).1⟩
  else
    match duplicatePositional ["prompt", "seed"] d with
    | some a => .error (dupMsg "generate_with_audioldm2" a)
    | none => .ok ⟨(i : Int), (generate_with_audioldm2 env prompt (i : Int) d.sample_rate).1⟩

/-- Run the variation loop for indices `0, …, n-1`, aborting at the first
failure (a failed iteration raises and the whole request becomes a 500). -/
def seqRange (step : ℕ → Except String MultiEntry) : ℕ → Except String (List MultiEntry)
  | 0 => .ok []
  | n + 1 =>
    match seqRange step n with
    | .error m => .error m
    | .ok es =>
      match step n with
      | .error m => .error m
      | .ok e => .ok (es ++ [e])

/-- The `/generate_multiple` handler (`audio_generation_server.py:403-453`). -/
def generate_multiple_audio (env : Env) (data : Json) : Resp :=
  let prompt := data.prompt.getD ""
  let numOptions := data.num_options.getD 3
  let provider := data.provider.getD env.defaultProvider
  if prompt = "" then .err 400 "No prompt provided"
  else
    match seqRange (multiStep env data provider prompt) numOptions with
    | .error m => .err 500 m
    | .ok es => .multi prompt (some provider) es (data.sample_rate.getD 44100)

end AudioGen

namespace ALDM

/-- The environment of `audioldm2_server.py`: credential sources, the
model-initialization state, and the opaque external collaborators. -/
structure Env where
  /-- The `ELEVENLABS_API_KEY` environment variable, if set. -/
  envKey : Option String
  /-- Key recovered from Unity's credential file, if any. -/
  unityKey : Option String
  /-- Key recovered from a local `.env` file, if any. -/
  dotenvKey : Option String
  /-- `audioldm2_model is not None`: whether the model has been loaded. -/
  modelLoaded : Bool
  /-- The opaque diffusion model: seed ↦ mono samples at 16 kHz. -/
  modelAudio : Int → List ℚ
  /-- Whether the remote sound-generation call succeeds. -/
  remoteOk : Bool
  /-- The samples decoded from the remote audio payload (opaque). -/
  remoteDecoded : List ℚ
  /-- The native rate of the decoded remote audio. -/
  remoteOrigSr : ℕ
  /-- The opaque resampler (librosa). -/
  resampleFn : List ℚ → ℕ → ℕ → List ℚ
  /-- numpy's trigonometric kernels for the test-tone branch. -/
  synth : SynthEnv

/-- The looping crossfade of `generate_with_elevenlabs`
(`audioldm2_server.py:176-183`): when the buffer is longer than twice the
100 ms fade window, the last `fadeN` samples are multiplied by
`linspace(1,0,fadeN)` and the first `fadeN` by `linspace(0,1,fadeN)`. -/
def crossfade (fadeN : ℕ) (xs : List ℚ) : List ℚ :=
  if fadeN * 2 < xs.length then
    (List.range xs.length).map (fun i =>
      let x := xs.getD i 0
      if i < fadeN then x * ((i : ℚ) / ((fadeN : ℚ) - 1))
      else if xs.length - fadeN ≤ i then
        x * (1 - ((i - (xs.length - fadeN) : ℕ) : ℚ) / ((fadeN : ℚ) - 1))
      else x)
  else xs

/-- `generate_with_elevenlabs` (`audioldm2_server.py:88-191`): resolve the
key in the order environment variable → Unity credential file → `.env`
file; with no key, raise before any network activity.  With a key, call
the remote API, decode, resample to the requested rate when the native
rate differs, and apply the looping crossfade when requested.  No
normalization is applied.  The second component records whether a network
request was attempted. -/
def generate_with_elevenlabs (env : Env) (_prompt : String) (_seed : Int)
    (sampleRate : ℕ) (_durationSeconds _promptInfluence : ℚ) (looping : Bool) :
    ElevenOut :=
  match pyOr env.envKey (pyOr env.unityKey env.dotenvKey) with
  | none =>
    ⟨.error ("ELEVENLABS_API_KEY not found. Please set it in Unity\x27s API Key" ++
      " Manager (Window > Satie > API Key Manager)"), false⟩
  | some _ =>
    if !env.remoteOk then ⟨.error "ElevenLabs generation failed", true⟩
    else
      let a0 := env.remoteDecoded
      let a1 := if env.remoteOrigSr ≠ sampleRate then
          env.resampleFn a0 env.remoteOrigSr sampleRate
        else a0
      let a2 := if looping then crossfade (sampleRate / 10) a1 else a1
      ⟨.ok a2, true⟩

/-- The `/generate` handler (`audioldm2_server.py:193-297`).  The provider
string is lowercased before dispatch; `audioldm2` answers 503 when the
model is not loaded and never initializes it in-request; unknown
lowercased providers answer 400. -/
def generate_audio (env : Env) (data : Json) : Resp :=
  let prompt := data.prompt.getD ""
  let seed := data.seed.getD 0
  let rate := data.sample_rate.getD 44100
  let provider := pyLower (data.provider.getD "elevenlabs")
  let durationSeconds := data.duration_seconds.getD 10
  let promptInfluence := data.prompt_influence.getD (3/10)
  let looping := data.looping.getD false
  if prompt = "" then .err 400 "No prompt provided"
  else if provider = "audioldm2" then
    if !env.modelLoaded then .err 503 "AudioLDM2 model not initialized"
    else
      let norm := audioldm2Normalize (env.modelAudio seed)
      let out := if rate ≠ 16000 then env.resampleFn norm 16000 rate else norm
      .wav out rate ("generated_" ++ provider ++ "_" ++ toString seed ++ ".wav")
  else if provider = "elevenlabs" then
    match (generate_with_elevenlabs env prompt seed rate durationSeconds
        promptInfluence looping).result with
    | .error m => .err 500 m
    | .ok s => .wav s rate ("generated_" ++ provider ++ "_" ++ toString seed ++ ".wav")
  else if provider = "test" then
    let n := (⌊(rate : ℚ) * 2⌋).toNat
    let audio := (List.range n).map (fun i =>
      (1/2) * env.synth.sinv (2 * env.synth.piv * (440 + (seed : ℚ) * 10) * linspaceAt 2 n i))
    .wav audio rate ("generated_" ++ provider ++ "_" ++ toString seed ++ ".wav")
  else .err 400 ("Unknown provider: " ++ provider)

/-- The names bound at the top level of the module `audioldm2_server.py`
(imports, globals and function definitions).  The bare name `model` is
not among them: it is read by `generate_multiple_audio` but never
assigned anywhere in the module. -/
def moduleBindings : List String :=
  ["os", "io", "logging", "base64", "Flask", "request", "jsonify", "send_file",
   "CORS", "np", "sf", "logger", "app", "audioldm2_model", "device",
   "initialize_audioldm2", "health_check", "generate_with_elevenlabs",
   "generate_audio", "generate_multiple_audio", "index"]

/-- Look a bare name up in the module's top-level bindings. -/
def lookupName (n : String) : Option String :=
  moduleBindings.find? (fun b => b = n)

/-- The `/generate_multiple` handler (`audioldm2_server.py:299-381`).
Its first executed statement, `if model is None`, sits outside the try
block and reads the bare name `model`, which is absent from the module's
top-level bindings, so CPython raises
`NameError: name 'model' is not defined` before anything else runs and
the exception escapes the handler.  The rest of the handler (the 503
check, validation and the generation loop, lines 304-381) is dead code
behind that lookup and is therefore not translated. -/
def generate_multiple_audio (_data : Json) : Resp :=
  match lookupName "model" with
  | some _ => Resp.unhandled "unreachable"
  | none => Resp.unhandled "NameError: name \x27model\x27 is not defined"

end ALDM

/-! ## Concrete inputs used by witnesses and counterexamples -/

/-- A concrete synthesizer environment: a constant sine kernel, no noise,
and a zero stand-in for pi (the claims never depend on the actual
transcendental values). -/
def synth0 : SynthEnv :=
  { sinv := fun _ => 1, noisev := fun _ => 0, piv := 0 }

/-- A concrete `audio_generation_server` environment with no credentials
configured anywhere. -/
def agsEnv0 : AudioGen.Env :=
  { configKey := "", unityKey := none, headerKey := none,
    remoteStatus := 200, remoteNonempty := true, remoteDecoded := [],
    remoteOrigSr := 44100, resampleFn := fun xs _ _ => xs,
    modelAudio := fun _ => [], defaultProvider := "audioldm2", synth := synth0 }

/-- A concrete `audio_generation_server` environment with a configured
ElevenLabs key and a remote payload that decodes to a single full-scale-ish
sample of amplitude 0.99. -/
def agsEnvLoud : AudioGen.Env :=
  { agsEnv0 with configKey := "k", remoteDecoded := [99/100] }

/-- A concrete `audioldm2_server` environment with no credentials and the
model not loaded. -/
def alsEnv0 : ALDM.Env :=
  { envKey := none, unityKey := none, dotenvKey := none, modelLoaded := false,
    modelAudio := fun _ => [], remoteOk := true, remoteDecoded := [],
    remoteOrigSr := 44100, resampleFn := fun xs _ _ => xs, synth := synth0 }

/-- A request with a non-empty prompt and the unknown provider `"bogus"`. -/
def jBogus : Json := { prompt := some "hi", provider := some "bogus" }

/-- A request with a non-empty prompt and the provider spelled `"TEST"`:
a string outside `{audioldm2, elevenlabs, test}`. -/
def jUpperTest : Json := { prompt := some "hello", provider := some "TEST" }

/-- A `/generate_multiple` request for the test provider with
`num_options = 0`. -/
def jTest0 : Json := { prompt := some "hi", provider := some "test", num_options := some 0 }

/-- A `/generate_multiple` request for the test provider with
`num_options = 2`. -/
def jTestW : Json := { prompt := some "hi", provider := some "test", num_options := some 2 }

/-- A `/generate` request for the ElevenLabs provider. -/
def jEleven : Json := { prompt := some "x", provider := some "elevenlabs" }

/-- A `/generate_multiple` request for the ElevenLabs provider with
`num_options = 2`. -/
def jMulti : Json :=
  { prompt := some "x", provider := some "elevenlabs", num_options := some 2 }

/-- A `/generate` request for the AudioLDM2 provider. -/
def jALDM2 : Json := { prompt := some "hi", provider := some "audioldm2" }

/-- The concrete scenario request of the spec:
`{"prompt": "gentle river sounds", "provider": "test", "seed": 2,
"sample_rate": 44100}`. -/
def jScenario : Json :=
  { prompt := some "gentle river sounds", provider := some "test",
    seed := some 2, sample_rate := some 44100 }

/-! ## Arithmetic facts about the post-processing pipeline -/

theorem peakAbs_nonneg (xs : List ℚ) : 0 ≤ peakAbs xs := by
  induction xs with
  | nil => simp [peakAbs]
  | cons a t ih =>
    simp only [peakAbs, List.foldr] at *
    exact le_trans ih (le_max_right _ _)

theorem abs_le_peakAbs {x : ℚ} {xs : List ℚ} (hx : x ∈ xs) : |x| ≤ peakAbs xs := by
  induction xs with
  | nil => cases hx
  | cons a t ih =>
    simp only [peakAbs, List.foldr] at *
    rcases List.mem_cons.mp hx with h | h
    · subst h; exact le_max_left _ _
    · exact le_trans (ih h) (le_max_right _ _)

theorem peakAbs_map_mul (xs : List ℚ) {k : ℚ} (hk : 0 ≤ k) :
    peakAbs (xs.map (fun x => x * k)) = peakAbs xs * k := by
  induction xs with
  | nil => simp [peakAbs]
  | cons a t ih =>
    simp only [peakAbs, List.foldr, List.map] at *
    rw [ih, abs_mul, abs_of_nonneg hk, max_mul_of_nonneg _ _ hk]

theorem peakAbs_map_div_mul (xs : List ℚ) {m c : ℚ} (hc : 0 ≤ c) (hm : 0 ≤ m) :
    peakAbs (xs.map (fun x => x / m * c)) = peakAbs xs * (c / m) := by
  have hfun : (fun x : ℚ => x / m * c) = fun x : ℚ => x * (c / m) := by
    funext x
    rw [div_mul_eq_mul_div, mul_div_assoc]
  rw [hfun, peakAbs_map_mul xs (div_nonneg hc hm)]

theorem peakAbs_testNormalize {xs : List ℚ} (h : 0 < peakAbs xs) :
    peakAbs (testNormalize xs) = 9/10 := by
  unfold testNormalize
  rw [peakAbs_map_div_mul xs (by norm_num) (le_of_lt h)]
  rw [mul_div_assoc']
  rw [mul_comm, mul_div_assoc, div_self (ne_of_gt h), mul_one]

theorem peakAbs_audioldm2Normalize_le (xs : List ℚ) :
    peakAbs (audioldm2Normalize xs) ≤ 19/20 := by
  unfold audioldm2Normalize
  by_cases h : 0 < peakAbs xs
  · rw [if_pos h, peakAbs_map_div_mul xs (by norm_num) (le_of_lt h)]
    rw [mul_div_assoc', mul_comm, mul_div_assoc, div_self (ne_of_gt h), mul_one]
  · rw [if_neg h]
    have h0 : peakAbs xs = 0 := le_antisymm (not_lt.mp h) (peakAbs_nonneg xs)
    rw [h0]; norm_num

theorem audioldm2Normalize_eq_specNormalize (xs : List ℚ) :
    audioldm2Normalize xs = specNormalize xs := by
  unfold audioldm2Normalize specNormalize
  by_cases h : peakAbs xs = 0
  · rw [if_neg (by rw [h]; exact lt_irrefl 0), if_pos h]
  · have hpos : 0 < peakAbs xs := lt_of_le_of_ne (peakAbs_nonneg xs) (Ne.symm h)
    rw [if_pos hpos, if_neg h]

/-! ## Facts about the multi-generation loop -/

theorem seqRange_ok_length (step : ℕ → Except String MultiEntry) :
    ∀ n es, AudioGen.seqRange step n = .ok es → es.length = n := by
  intro n
  induction n with
  | zero =>
    intro es h
    simp only [AudioGen.seqRange] at h
    cases h
    rfl
  | succ k ih =>
    intro es h
    simp only [AudioGen.seqRange] at h
    cases h1 : AudioGen.seqRange step k with
    | error m => rw [h1] at h; cases h
    | ok es0 =>
      rw [h1] at h
      cases h2 : step k with
      | error m => rw [h2] at h; cases h
      | ok e =>
        rw [h2] at h
        cases h
        simp [ih es0 h1]

theorem seqRange_ok_get (step : ℕ → Except String MultiEntry) :
    ∀ n es, AudioGen.seqRange step n = .ok es →
      ∀ i (hi : i < es.length), step i = .ok (es.get ⟨i, hi⟩) := by
  intro n
  induction n with
  | zero =>
    intro es h i hi
    simp only [AudioGen.seqRange] at h
    cases h
    exact absurd hi (by simp)
  | succ k ih =>
    intro es h i hi
    simp only [AudioGen.seqRange] at h
    cases h1 : AudioGen.seqRange step k with
    | error m => rw [h1] at h; cases h
    | ok es0 =>
      rw [h1] at h
      cases h2 : step k with
      | error m => rw [h2] at h; cases h
      | ok e =>
        rw [h2] at h
        cases h
        have hlen : es0.length = k := seqRange_ok_length step k es0 h1
        by_cases hik : i < es0.length
        · have := ih es0 h1 i hik
          rw [this]
          congr 1
          simp [List.get_eq_getElem, List.getElem_append_left hik]
        · have hieq : i = es0.length := by
            have : i < es0.length + 1 := by simpa using hi
            omega
          subst hieq
          have hg : (es0 ++ [e]).get ⟨es0.length, hi⟩ = e := by
            simp [List.get_eq_getElem]
          rw [hg, hlen]
          exact h2

theorem seqRange_all_error (step : ℕ → Except String MultiEntry) (m : String)
    (hstep : ∀ i, step i = .error m) :
    ∀ n, 0 < n → AudioGen.seqRange step n = .error m := by
  intro n
  induction n with
  | zero => intro h; cases h
  | succ k ih =>
    intro _
    simp only [AudioGen.seqRange]
    cases k with
    | zero => simp [AudioGen.seqRange, hstep 0]
    | succ j => rw [ih (Nat.succ_pos j)]

/-! ## The duplicate-argument condition -/

theorem duplicatePositional_prompt (d : Json) (h : d.prompt.isSome) :
    duplicatePositional ["prompt", "seed"] d = some "prompt" := by
  have hm : "prompt" ∈ jsonKeys d := by
    simp [jsonKeys, h]
  simp [duplicatePositional, List.find?, hm]

/-! ## Credential-resolution facts -/

theorem truthyOpt_falsy {a : Option String} (h : falsy a = true) : truthyOpt a = none := by
  cases a with
  | none => rfl
  | some s =>
    simp only [falsy, decide_eq_true_eq] at h
    simp [truthyOpt, h]

theorem pyOr_falsy_left {a : Option String} (h : falsy a = true) (b : Option String) :
    pyOr a b = truthyOpt b := by
  simp [pyOr, truthyOpt_falsy h]

theorem pyOr_none_of_falsy {a b : Option String}
    (ha : falsy a = true) (hb : falsy b = true) : pyOr a b = none := by
  rw [pyOr_falsy_left ha, truthyOpt_falsy hb]

/-! ## Claims -/

/-- C9 (counterexample): the claim says `normalize` divides by the peak
and scales to 0.95 of full scale for every sample sequence, but the test
generators' normalization scales the buffer `[1]` to `[0.9]`, not the
`[0.95]` the claimed normalize would produce. -/
theorem claim9_counterexample :
    testNormalize [(1 : ℚ)] = [9/10] ∧
    specNormalize [(1 : ℚ)] = [19/20] ∧
    testNormalize [(1 : ℚ)] ≠ specNormalize [(1 : ℚ)] := by
  have h1 : peakAbs [(1 : ℚ)] = 1 := by norm_num [peakAbs]
  have h2 : testNormalize [(1 : ℚ)] = [9/10] := by
    simp [testNormalize, h1]
  have h3 : specNormalize [(1 : ℚ)] = [19/20] := by
    simp [specNormalize, h1]
  refine ⟨h2, h3, ?_⟩
  rw [h2, h3]
  intro h
  have := List.head_eq_of_cons_eq h
  norm_num at this

/-- C9 (amended): the AudioLDM2 branches' normalization is exactly the
spec's `normalize` (divide by the peak, scale to 0.95, no-op on a zero
peak), while the test generators' normalization scales the peak to 0.9 of
full scale (shown here for a nonzero peak; it also has no zero-peak
guard, dividing by zero in that degenerate case). -/
theorem claim9_amended (xs : List ℚ) :
    audioldm2Normalize xs = specNormalize xs ∧
    (0 < peakAbs xs → peakAbs (testNormalize xs) = 9/10) :=
  ⟨audioldm2Normalize_eq_specNormalize xs, fun h => peakAbs_testNormalize h⟩

/-- C9 (witness): the amended claim evaluated at the buffer `[1]`. -/
theorem claim9_witness :
    0 < peakAbs [(1 : ℚ)] ∧ peakAbs (testNormalize [(1 : ℚ)]) = 9/10 ∧
    audioldm2Normalize [(1 : ℚ)] = specNormalize [(1 : ℚ)] := by
  have hpos : 0 < peakAbs [(1 : ℚ)] := by norm_num [peakAbs]
  have h := claim9_amended [(1 : ℚ)]
  exact ⟨hpos, h.2 hpos, h.1⟩

/-- C10: every POST `/generate_multiple` request to `audioldm2_server.py`
fails with an unhandled `NameError` before any generation is attempted:
the handler reads the bare name `model`, which is never assigned anywhere
in the module, outside its try block; so the endpoint never returns the
documented 503 and never returns a success response for any input. -/
theorem claim10_model_undefined (data : Json) :
    ALDM.generate_multiple_audio data
      = Resp.unhandled "NameError: name \x27model\x27 is not defined" ∧
    ALDM.lookupName "model" = none ∧
    (ALDM.generate_multiple_audio data).isMulti = false ∧
    (ALDM.generate_multiple_audio data).isErr = false ∧
    (ALDM.generate_multiple_audio data).statusOf = 500 := by
  refine ⟨by rfl, by rfl, by rfl, by rfl, by rfl⟩

/-- C2 (counterexample): the claim says every server answers a missing or
empty prompt with an HTTP 400 validation error, but `test_audio_server.py`
performs no prompt validation: a request without a prompt key defaults to
the prompt `'test'` and succeeds with a WAV response. -/
theorem claim2_counterexample :
    ({} : Json).prompt = none ∧
    (TestSrv.generate_audio synth0 {}).isErr = false ∧
    (TestSrv.generate_audio synth0 {}).isWav = true := by
  refine ⟨rfl, by rfl, by rfl⟩

/-- C2 (amended): on a missing or empty prompt, `/generate` of
`audio_generation_server.py` and of `audioldm2_server.py` returns the
HTTP 400 validation error `No prompt provided` and produces no audio;
`test_audio_server.py` performs no prompt validation at all: it never
answers with a 400 validation error, and for any requested sample rate
of at least 10 (in particular the default 44100) it returns a WAV
response; the degenerate rates 0-9 instead end in a 500 numpy ValueError
(zero-length fade broadcast at rates 1-9, empty-array reduction at
rate 0), still not a validation error. -/
theorem claim2_amended (envA : AudioGen.Env) (envB : ALDM.Env) (s : SynthEnv)
    (data : Json) (h : data.prompt = none ∨ data.prompt = some "") :
    AudioGen.generate_audio envA data = .err 400 "No prompt provided" ∧
    ALDM.generate_audio envB data = .err 400 "No prompt provided" ∧
    (TestSrv.generate_audio s data).statusOf ≠ 400 ∧
    (10 ≤ data.sample_rate.getD 44100 →
      (TestSrv.generate_audio s data).isWav = true) ∧
    (data.sample_rate.getD 44100 < 10 →
      (TestSrv.generate_audio s data).statusOf = 500) := by
  refine ⟨?_, ?_, ?_, ?_, ?_⟩
  · rcases h with h | h <;> simp [AudioGen.generate_audio, h]
  · rcases h with h | h <;> simp [ALDM.generate_audio, h]
  · by_cases h1 : (data.sample_rate.getD 44100) / 10 = 0 ∧
        0 < numSamples (data.sample_rate.getD 44100)
    · simp [TestSrv.generate_audio, h1, Resp.statusOf]
    · by_cases h2 : numSamples (data.sample_rate.getD 44100) = 0
      · simp [TestSrv.generate_audio, h1, h2, Resp.statusOf]
      · simp [TestSrv.generate_audio, h1, h2, Resp.statusOf]
  · intro hr
    have h1 : ¬((data.sample_rate.getD 44100) / 10 = 0 ∧
        0 < numSamples (data.sample_rate.getD 44100)) := by
      rintro ⟨h0, _⟩
      rw [Nat.div_eq_zero_iff (by norm_num)] at h0
      omega
    have h2 : numSamples (data.sample_rate.getD 44100) ≠ 0 := by
      simp only [numSamples]
      omega
    simp [TestSrv.generate_audio, h1, h2, Resp.isWav]
  · intro hr
    have h0 : (data.sample_rate.getD 44100) / 10 = 0 := Nat.div_eq_of_lt hr
    by_cases hn : numSamples (data.sample_rate.getD 44100) = 0
    · have h1 : ¬((data.sample_rate.getD 44100) / 10 = 0 ∧
          0 < numSamples (data.sample_rate.getD 44100)) := by
        rintro ⟨_, hpos⟩
        omega
      simp [TestSrv.generate_audio, h1, hn, Resp.statusOf]
    · have h1 : (data.sample_rate.getD 44100) / 10 = 0 ∧
          0 < numSamples (data.sample_rate.getD 44100) :=
        ⟨h0, Nat.pos_of_ne_zero hn⟩
      simp [TestSrv.generate_audio, h1, Resp.statusOf]

/-- C2 (witness): the amended claim evaluated at the empty request body
(whose sample rate defaults to 44100). -/
theorem claim2_witness :
    (({} : Json).prompt = none ∨ ({} : Json).prompt = some "") ∧
    10 ≤ ({} : Json).sample_rate.getD 44100 ∧
    AudioGen.generate_audio agsEnv0 {} = .err 400 "No prompt provided" ∧
    ALDM.generate_audio alsEnv0 {} = .err 400 "No prompt provided" ∧
    (TestSrv.generate_audio synth0 {}).isWav = true := by
  have h := claim2_amended agsEnv0 alsEnv0 synth0 {} (Or.inl rfl)
  exact ⟨Or.inl rfl, by decide, h.1, h.2.1, h.2.2.2.1 (by decide)⟩

/-- C7: when an ElevenLabs adapter is invoked and no API key is
resolvable from any of its sources (per-request override and
configured/Unity key for `audio_generation_server.py`; environment
variable, Unity credential file and `.env` for `audioldm2_server.py`),
it raises an error whose message references the missing credential, and
no network request to the remote API is attempted. -/
theorem claim7_no_key_no_network (envA : AudioGen.Env) (envB : ALDM.Env)
    (ov : Option String) (kwr : Option ℕ) (prompt : String) (seed : Int)
    (rate : ℕ) (ds pinf : ℚ) (lp : Bool)
    (hA1 : falsy ov = true) (hA2 : envA.configKey = "")
    (hA3 : falsy envA.unityKey = true)
    (hB1 : falsy envB.envKey = true) (hB2 : falsy envB.unityKey = true)
    (hB3 : falsy envB.dotenvKey = true) :
    AudioGen.generate_with_elevenlabs envA ov kwr
      = ⟨.error "Eleven Labs API key not configured", false⟩ ∧
    ALDM.generate_with_elevenlabs envB prompt seed rate ds pinf lp
      = ⟨.error ("ELEVENLABS_API_KEY not found. Please set it in Unity\x27s API Key" ++
          " Manager (Window > Satie > API Key Manager)"), false⟩ ∧
    containsSub "Eleven Labs API key not configured" "API key" = true ∧
    containsSub "ELEVENLABS_API_KEY not found. Please set it in Unity\x27s API Key Manager (Window > Satie > API Key Manager)" "API_KEY" = true := by
  have hkeyA : pyOr ov (AudioGen.startupKey envA) = none := by
    have hs : AudioGen.startupKey envA = none := by
      unfold AudioGen.startupKey
      rw [hA2]
      exact pyOr_none_of_falsy (by simp [falsy]) hA3
    rw [pyOr_falsy_left hA1, hs]
    rfl
  have hkeyB : pyOr envB.envKey (pyOr envB.unityKey envB.dotenvKey) = none := by
    rw [pyOr_falsy_left hB1, pyOr_none_of_falsy hB2 hB3]
    rfl
  refine ⟨?_, ?_, by decide, by decide⟩
  · unfold AudioGen.generate_with_elevenlabs
    rw [hkeyA]
  · unfold ALDM.generate_with_elevenlabs
    rw [hkeyB]

/-- C7 (witness): the theorem evaluated at environments with no
credentials configured anywhere. -/
theorem claim7_witness :
    falsy agsEnv0.unityKey = true ∧ agsEnv0.configKey = "" ∧
    falsy alsEnv0.envKey = true ∧
    AudioGen.generate_with_elevenlabs agsEnv0 none none
      = ⟨.error "Eleven Labs API key not configured", false⟩ ∧
    (AudioGen.generate_with_elevenlabs agsEnv0 none none).networkCalled = false := by
  have h := claim7_no_key_no_network agsEnv0 alsEnv0 none none "x" 0 44100 10
    (3/10) false rfl rfl rfl rfl rfl rfl
  exact ⟨rfl, rfl, rfl, h.1, by rw [h.1]⟩

/-- C1 (counterexample): the provider string `"TEST"` lies outside
`{audioldm2, elevenlabs, test}`, yet `audioldm2_server.py` lowercases the
provider before dispatch and returns a successful test-tone WAV, not an
error. -/
theorem claim1_counterexample :
    (("TEST" : String) = "audioldm2" ∨ ("TEST" : String) = "elevenlabs" ∨
      ("TEST" : String) = "test" → False) ∧
    jUpperTest.provider = some "TEST" ∧
    (ALDM.generate_audio alsEnv0 jUpperTest).isErr = false ∧
    (ALDM.generate_audio alsEnv0 jUpperTest).isWav = true := by
  refine ⟨by decide, rfl, by decide, by decide⟩

/-- C1 (amended): for a provider string whose lowercase form is outside
`{audioldm2, elevenlabs, test}`, both servers answer with an error:
`audioldm2_server.py` with the 400 `Unknown provider` validation error,
while `audio_generation_server.py` silently dispatches the request to its
default AudioLDM2 branch, where the duplicate-argument TypeError turns it
into a 500 error (or 400 when the prompt is empty). -/
theorem claim1_amended (envA : AudioGen.Env) (envB : ALDM.Env) (data : Json)
    (p : String) (hp : data.provider = some p)
    (h1 : pyLower p ≠ "audioldm2") (h2 : pyLower p ≠ "elevenlabs")
    (h3 : pyLower p ≠ "test") :
    (ALDM.generate_audio envB data).isErr = true ∧
    (AudioGen.generate_audio envA data).isErr = true ∧
    (data.prompt.getD "" ≠ "" →
      ALDM.generate_audio envB data = .err 400 ("Unknown provider: " ++ pyLower p) ∧
      AudioGen.generate_audio envA data
        = .err 500 (AudioGen.dupMsg "generate_with_audioldm2" "prompt")) := by
  have hpe : p ≠ "elevenlabs" := fun h => h2 (by rw [h]; decide)
  have hpt : p ≠ "test" := fun h => h3 (by rw [h]; decide)
  by_cases hq : data.prompt.getD "" = ""
  · refine ⟨?_, ?_, fun hne => absurd hq hne⟩
    · simp [ALDM.generate_audio, hq, Resp.isErr]
    · simp [AudioGen.generate_audio, hq, Resp.isErr]
  · have hsome : data.prompt.isSome := by
      cases hpr : data.prompt with
      | none => rw [hpr] at hq; simp at hq
      | some s => rfl
    have hdup := duplicatePositional_prompt data hsome
    refine ⟨?_, ?_, fun _ => ⟨?_, ?_⟩⟩
    · simp [ALDM.generate_audio, hq, hp, h1, h2, h3, Resp.isErr]
    · simp [AudioGen.generate_audio, hq, hp, hpe, hpt, hdup, Resp.isErr]
    · simp [ALDM.generate_audio, hq, hp, h1, h2, h3]
    · simp [AudioGen.generate_audio, hq, hp, hpe, hpt, hdup]

/-- C1 (witness): the amended claim evaluated at the provider `"bogus"`
with a non-empty prompt. -/
theorem claim1_witness :
    pyLower "bogus" ≠ "audioldm2" ∧
    jBogus.provider = some "bogus" ∧
    (ALDM.generate_audio alsEnv0 jBogus).isErr = true ∧
    (AudioGen.generate_audio agsEnv0 jBogus).isErr = true := by
  have h := claim1_amended agsEnv0 alsEnv0 jBogus "bogus" rfl
    (by decide) (by decide) (by decide)
  exact ⟨by decide, rfl, h.1, h.2.1⟩

/-- C8 (counterexample): a `/generate` request for the `audioldm2`
provider with the model not loaded makes `audio_generation_server.py`
answer 500 (the duplicate-argument TypeError), not the claimed 503. -/
theorem claim8_counterexample :
    jALDM2.provider = some "audioldm2" ∧
    (AudioGen.generate_audio agsEnv0 jALDM2).statusOf = 500 ∧
    ¬ (AudioGen.generate_audio agsEnv0 jALDM2).statusOf = 503 := by
  refine ⟨rfl, by decide, by decide⟩

/-- C8 (amended): with the model not loaded, `audioldm2_server.py`
answers a `/generate` request for the `audioldm2` provider with HTTP 503
and performs no in-request initialization, while
`audio_generation_server.py` — whose adapter is written to lazily
initialize the model in-request — answers 500, because the
duplicate-argument TypeError aborts the call before the adapter runs. -/
theorem claim8_amended (envA : AudioGen.Env) (envB : ALDM.Env) (data : Json)
    (s : String) (hp : data.prompt = some s) (hs : s ≠ "")
    (hprov : data.provider = some "audioldm2")
    (hml : envB.modelLoaded = false) :
    ALDM.generate_audio envB data = .err 503 "AudioLDM2 model not initialized" ∧
    AudioGen.generate_audio envA data
      = .err 500 (AudioGen.dupMsg "generate_with_audioldm2" "prompt") := by
  have hdup := duplicatePositional_prompt data (by rw [hp]; rfl)
  have ht : pyLower "audioldm2" = "audioldm2" := by decide
  have c1 : ("audioldm2" : String) ≠ "elevenlabs" := by decide
  have c2 : ("audioldm2" : String) ≠ "test" := by decide
  constructor
  · simp [ALDM.generate_audio, hp, hs, hprov, hml, ht]
  · simp [AudioGen.generate_audio, hp, hs, hprov, c1, c2, hdup]

/-- C8 (witness): the amended claim evaluated at a concrete request and
an environment with the model not loaded. -/
theorem claim8_witness :
    jALDM2.prompt = some "hi" ∧ alsEnv0.modelLoaded = false ∧
    ALDM.generate_audio alsEnv0 jALDM2 = .err 503 "AudioLDM2 model not initialized" ∧
    AudioGen.generate_audio agsEnv0 jALDM2
      = .err 500 (AudioGen.dupMsg "generate_with_audioldm2" "prompt") := by
  have h := claim8_amended agsEnv0 alsEnv0 jALDM2 "hi" rfl (by decide) rfl rfl
  exact ⟨rfl, rfl, h.1, h.2⟩

/-- One variation step for the `test` provider always fails with the
duplicate-`prompt` TypeError when the body has a prompt key. -/
theorem multiStep_dup_test (env : AudioGen.Env) (data : Json) (prompt : String)
    (hp : data.prompt.isSome) (i : ℕ) :
    AudioGen.multiStep env data "test" prompt i
      = .error (AudioGen.dupMsg "generate_test_audio" "prompt") := by
  have hsome : ({ data with seed := some (i : Int) } : Json).prompt.isSome := hp
  have hdup := duplicatePositional_prompt _ hsome
  have c1 : ("test" : String) ≠ "elevenlabs" := by decide
  simp [AudioGen.multiStep, c1, hdup]

/-- One variation step for any provider other than `elevenlabs` and
`test` (the AudioLDM2 default branch) always fails with the
duplicate-`prompt` TypeError when the body has a prompt key. -/
theorem multiStep_dup_default (env : AudioGen.Env) (data : Json)
    (provider prompt : String) (hp : data.prompt.isSome)
    (h1 : provider ≠ "elevenlabs") (h2 : provider ≠ "test") (i : ℕ) :
    AudioGen.multiStep env data provider prompt i
      = .error (AudioGen.dupMsg "generate_with_audioldm2" "prompt") := by
  have hsome : ({ data with seed := some (i : Int) } : Json).prompt.isSome := hp
  have hdup := duplicatePositional_prompt _ hsome
  simp [AudioGen.multiStep, h1, h2, hdup]

/-- C3 (amended): in `audio_generation_server.py`, every `/generate`
request with a non-empty prompt whose resolved provider is not
`elevenlabs` (i.e. the `test` branch or the AudioLDM2 default branch)
fails with a 500 error: the body is expanded as keyword arguments while
`prompt` and `seed` are also passed positionally, so the adapter call
raises a duplicate-argument TypeError.  `/generate_multiple` fails the
same way whenever `num_options ≥ 1`; with `num_options = 0` the loop body
never runs and the endpoint returns a success response containing no
audio at all.  Either way these providers never return audio through this
server's HTTP surface. -/
theorem claim3_amended (env : AudioGen.Env) (data : Json) (s : String)
    (hp : data.prompt = some s) (hs : s ≠ "")
    (hprov : data.provider.getD env.defaultProvider ≠ "elevenlabs") :
    (AudioGen.generate_audio env data).isErr = true ∧
    (AudioGen.generate_audio env data).statusOf = 500 ∧
    (0 < data.num_options.getD 3 →
      (AudioGen.generate_multiple_audio env data).isErr = true ∧
      (AudioGen.generate_multiple_audio env data).statusOf = 500) ∧
    (data.num_options.getD 3 = 0 →
      AudioGen.generate_multiple_audio env data
        = .multi s (some (data.provider.getD env.defaultProvider)) []
            (data.sample_rate.getD 44100)) := by
  have hsome : data.prompt.isSome := by rw [hp]; rfl
  have hdup := duplicatePositional_prompt data hsome
  by_cases hpt : data.provider.getD env.defaultProvider = "test"
  · have hsingle : AudioGen.generate_audio env data
        = .err 500 (AudioGen.dupMsg "generate_test_audio" "prompt") := by
      simp [AudioGen.generate_audio, hp, hs, hprov, hpt, hdup]
    have hstep : ∀ i, AudioGen.multiStep env data
        (data.provider.getD env.defaultProvider) s i
        = .error (AudioGen.dupMsg "generate_test_audio" "prompt") := by
      intro i
      rw [hpt]
      exact multiStep_dup_test env data s hsome i
    refine ⟨by rw [hsingle]; rfl, by rw [hsingle]; rfl, ?_, ?_⟩
    · intro hN
      have hseq := seqRange_all_error _ _ hstep _ hN
      have hmulti : AudioGen.generate_multiple_audio env data
          = .err 500 (AudioGen.dupMsg "generate_test_audio" "prompt") := by
        simp [AudioGen.generate_multiple_audio, hp, hs, hseq]
      rw [hmulti]
      exact ⟨rfl, rfl⟩
    · intro hN0
      simp [AudioGen.generate_multiple_audio, hp, hs, hN0, AudioGen.seqRange]
  · have hsingle : AudioGen.generate_audio env data
        = .err 500 (AudioGen.dupMsg "generate_with_audioldm2" "prompt") := by
      simp [AudioGen.generate_audio, hp, hs, hprov, hpt, hdup]
    have hstep : ∀ i, AudioGen.multiStep env data
        (data.provider.getD env.defaultProvider) s i
        = .error (AudioGen.dupMsg "generate_with_audioldm2" "prompt") :=
      fun i => multiStep_dup_default env data _ s hsome hprov hpt i
    refine ⟨by rw [hsingle]; rfl, by rw [hsingle]; rfl, ?_, ?_⟩
    · intro hN
      have hseq := seqRange_all_error _ _ hstep _ hN
      have hmulti : AudioGen.generate_multiple_audio env data
          = .err 500 (AudioGen.dupMsg "generate_with_audioldm2" "prompt") := by
        simp [AudioGen.generate_multiple_audio, hp, hs, hseq]
      rw [hmulti]
      exact ⟨rfl, rfl⟩
    · intro hN0
      simp [AudioGen.generate_multiple_audio, hp, hs, hN0, AudioGen.seqRange]

/-- C3 (counterexample): a `/generate_multiple` request for the `test`
provider with a non-empty prompt and `num_options = 0` does NOT fail with
an error response: it succeeds with an empty list of audio files. -/
theorem claim3_counterexample :
    jTest0.prompt = some "hi" ∧ jTest0.provider = some "test" ∧
    AudioGen.generate_multiple_audio agsEnv0 jTest0
      = Resp.multi "hi" (some "test") [] 44100 ∧
    (AudioGen.generate_multiple_audio agsEnv0 jTest0).isErr = false := by
  refine ⟨rfl, rfl, by decide, by decide⟩

/-- C3 (witness): the amended claim evaluated at a `test`-provider
request with `num_options = 2`. -/
theorem claim3_witness :
    jTestW.prompt = some "hi" ∧
    jTestW.provider.getD agsEnv0.defaultProvider ≠ "elevenlabs" ∧
    0 < jTestW.num_options.getD 3 ∧
    (AudioGen.generate_audio agsEnv0 jTestW).statusOf = 500 ∧
    (AudioGen.generate_multiple_audio agsEnv0 jTestW).statusOf = 500 := by
  have h := claim3_amended agsEnv0 jTestW "hi" rfl (by decide) (by decide)
  exact ⟨rfl, by decide, by decide, h.2.1, (h.2.2.1 (by decide)).2⟩

/-- C4 (counterexample): a successful ElevenLabs generation through
`audio_generation_server.py` hands the WAV encoder the decoded remote
samples unchanged; with a decoded peak of 0.99 of full scale the encoded
peak exceeds the claimed 0.95 bound. -/
theorem claim4_counterexample :
    AudioGen.generate_audio agsEnvLoud jEleven
      = Resp.wav [99/100] 44100 "generated_elevenlabs_0.wav" ∧
    ¬ peakAbs [(99 : ℚ)/100] ≤ 19/20 := by
  constructor
  · rfl
  · have habs : |(99 : ℚ)/100| = 99/100 := abs_of_nonneg (by norm_num)
    norm_num [peakAbs, habs]

/-- C4 (amended): the AudioLDM2 branches' normalization bounds the peak
by 0.95 of full scale and the test generators' normalization sets it to
0.9, but the ElevenLabs pipeline applies no normalization at all: on
success (shown here without resampling, i.e. when the decoded rate equals
the requested rate) it hands the decoded remote samples to the encoder
unchanged, so the encoded peak is whatever the remote audio's peak is. -/
theorem claim4_amended (xs : List ℚ) (env : AudioGen.Env) (ov : Option String)
    (kwr : Option ℕ) (out : List ℚ)
    (hok : (AudioGen.generate_with_elevenlabs env ov kwr).result = .ok out)
    (hsr : env.remoteOrigSr = kwr.getD 44100) :
    peakAbs (audioldm2Normalize xs) ≤ 19/20 ∧
    (0 < peakAbs xs → peakAbs (testNormalize xs) = 9/10) ∧
    out = env.remoteDecoded := by
  refine ⟨peakAbs_audioldm2Normalize_le xs, fun h => peakAbs_testNormalize h, ?_⟩
  simp only [AudioGen.generate_with_elevenlabs] at hok
  split at hok
  · simp at hok
  · split at hok
    · simp at hok
    · split at hok
      · simp at hok
      · simp only [hsr, if_pos] at hok
        simp at hok
        exact hok.symm

/-- C4 (witness): the amended claim evaluated at a configured key and a
remote payload decoding to a 0.99-peak sample. -/
theorem claim4_witness :
    (AudioGen.generate_with_elevenlabs agsEnvLoud none none).result
      = .ok [99/100] ∧
    agsEnvLoud.remoteOrigSr = (none : Option ℕ).getD 44100 ∧
    0 < peakAbs [(1 : ℚ)] ∧
    peakAbs (testNormalize [(1 : ℚ)]) = 9/10 ∧
    [(99 : ℚ)/100] = agsEnvLoud.remoteDecoded := by
  have hok : (AudioGen.generate_with_elevenlabs agsEnvLoud none none).result
      = .ok [99/100] := rfl
  have hpos : 0 < peakAbs [(1 : ℚ)] := by norm_num [peakAbs]
  have h := claim4_amended [(1 : ℚ)] agsEnvLoud none none [99/100] hok rfl
  exact ⟨hok, rfl, hpos, h.2.1 hpos, h.2.2⟩

/-- Every successful variation step carries the loop index as its seed
parameter (`data['seed'] = i`). -/
theorem multiStep_seed (env : AudioGen.Env) (data : Json)
    (provider prompt : String) (i : ℕ) (e : MultiEntry)
    (h : AudioGen.multiStep env data provider prompt i = .ok e) :
    e.seedParam = (i : Int) := by
  simp only [AudioGen.multiStep] at h
  split at h
  · split at h
    · simp at h
    · rw [← Except.ok.inj h]
  · split at h
    · split at h
      · simp at h
      · rw [← Except.ok.inj h]
    · split at h
      · simp at h
      · rw [← Except.ok.inj h]

/-- C6: for every successful `/generate_multiple` response of
`audio_generation_server.py` the audio list has exactly `num_options`
(default 3) entries, and entry `i` is generated with seed `i`
(`data['seed'] = i` is set before the adapter call of variation `i`;
only the ElevenLabs branch can succeed, and it receives the seed as a
keyword argument).  The same endpoint of `audioldm2_server.py` never
returns a success response at all — see the C10 theorem. -/
theorem claim6_multi_count_seeds (env : AudioGen.Env) (data : Json)
    (p : String) (pv : Option String) (es : List MultiEntry) (r : ℕ)
    (h : AudioGen.generate_multiple_audio env data = .multi p pv es r) :
    es.length = data.num_options.getD 3 ∧
    ∀ i (hi : i < es.length), (es.get ⟨i, hi⟩).seedParam = (i : Int) := by
  simp only [AudioGen.generate_multiple_audio] at h
  by_cases hq : data.prompt.getD "" = ""
  · rw [if_pos hq] at h
    simp at h
  · rw [if_neg hq] at h
    cases hseq : AudioGen.seqRange
        (AudioGen.multiStep env data (data.provider.getD env.defaultProvider)
          (data.prompt.getD ""))
        (data.num_options.getD 3) with
    | error m => rw [hseq] at h; simp at h
    | ok es0 =>
      rw [hseq] at h
      injection h with h1 h2 h3 h4
      subst h3
      refine ⟨seqRange_ok_length _ _ _ hseq, ?_⟩
      intro i hi
      exact multiStep_seed env data _ _ i _ (seqRange_ok_get _ _ _ hseq i hi)

/-- C6 (witness): a successful two-variation ElevenLabs request, with
the response computed concretely and the theorem applied to it. -/
theorem claim6_witness :
    AudioGen.generate_multiple_audio agsEnvLoud jMulti
      = Resp.multi "x" (some "elevenlabs") [⟨0, [99/100]⟩, ⟨1, [99/100]⟩] 44100 ∧
    ([⟨0, [99/100]⟩, ⟨1, [99/100]⟩] : List MultiEntry).length
      = jMulti.num_options.getD 3 ∧
    (([⟨0, [99/100]⟩, ⟨1, [99/100]⟩] : List MultiEntry).get ⟨1, by decide⟩).seedParam
      = (1 : Int) := by
  have hh : AudioGen.generate_multiple_audio agsEnvLoud jMulti
      = Resp.multi "x" (some "elevenlabs") [⟨0, [99/100]⟩, ⟨1, [99/100]⟩] 44100 := rfl
  have h := claim6_multi_count_seeds agsEnvLoud jMulti _ _ _ _ hh
  exact ⟨hh, h.1, h.2 1 (by decide)⟩

/-- `int(44100 * 3.0) = 132300` samples in the concrete scenario. -/
theorem numSamples_44100 : numSamples 44100 = 132300 := rfl

/-- The raw test waveform of the concrete scenario has a strictly
positive peak for the constant-sine witness synthesizer: the sample at
index 5000 sits after the fade-in window and equals 1/2. -/
theorem claim5_peak_pos : 0 < peakAbs (sineTestWave synth0 300 44100) := by
  have hmem : rawSampleAt synth0 300 44100 (numSamples 44100) 5000
      ∈ sineTestWave synth0 300 44100 := by
    unfold sineTestWave
    exact List.mem_map.mpr
      ⟨5000, List.mem_range.mpr (by rw [numSamples_44100]; norm_num), rfl⟩
  have hle := abs_le_peakAbs hmem
  have henv : envelopeAt (44100 / 10) (numSamples 44100) 5000 = 1 := by
    rw [numSamples_44100]
    norm_num [envelopeAt]
  have hv : rawSampleAt synth0 300 44100 (numSamples 44100) 5000 = 1/2 := by
    simp only [rawSampleAt, synth0]
    rw [henv]
    norm_num
  rw [hv] at hle
  have h2 : |(1 : ℚ)/2| = 1/2 := abs_of_nonneg (by norm_num)
  rw [h2] at hle
  linarith

/-- C5: for the request `{"prompt": "gentle river sounds",
"provider": "test", "seed": 2, "sample_rate": 44100}`, the test adapter
matches the keyword `river` and synthesizes with base frequency
`200 + 2*50 = 300` Hz, a 3.0-second clip (`int(44100*3.0) = 132300`
samples), a WAV whose header rate is the requested 44100, and a
non-clipping peak of exactly 0.9 of full scale (exact-rational model of
the float computation) whenever the raw waveform has a nonzero peak. -/
theorem claim5_test_scenario (s : SynthEnv)
    (h : 0 < peakAbs (sineTestWave s 300 44100)) :
    AudioGen.testFrequency "gentle river sounds" 2 = 300 ∧
    TestSrv.testFrequency "gentle river sounds" 2 = 300 ∧
    AudioGen.generate_test_audio s "gentle river sounds" 2 (some 44100)
      = (testNormalize (sineTestWave s 300 44100), 44100) ∧
    TestSrv.generate_audio s jScenario
      = Resp.wav (testNormalize (sineTestWave s 300 44100)) 44100 "test_2.wav" ∧
    numSamples 44100 = 132300 ∧
    (testNormalize (sineTestWave s 300 44100)).length = 132300 ∧
    peakAbs (testNormalize (sineTestWave s 300 44100)) = 9/10 := by
  have hriver : containsSub (pyLower "gentle river sounds") "river" = true := by
    decide
  have hfA : AudioGen.testFrequency "gentle river sounds" 2 = 300 := by
    norm_num [AudioGen.testFrequency, hriver]
  have hfT : TestSrv.testFrequency "gentle river sounds" 2 = 300 := by
    norm_num [TestSrv.testFrequency, hriver]
  have hname : ("test_" ++ toString (2 : Int) ++ ".wav" : String) = "test_2.wav" := by
    decide
  have hg1 : ¬((44100 : ℕ) / 10 = 0 ∧ 0 < numSamples 44100) := by decide
  have hg2 : numSamples 44100 ≠ 0 := by decide
  refine ⟨hfA, hfT, ?_, ?_, numSamples_44100, ?_, peakAbs_testNormalize h⟩
  · simp [AudioGen.generate_test_audio, hfA]
  · simp [TestSrv.generate_audio, jScenario, hfT, hname, hg1, hg2]
  · simp [testNormalize, sineTestWave, numSamples_44100]

/-- C5 (witness): the scenario theorem evaluated at the constant-sine
witness synthesizer, whose raw waveform provably has a positive peak. -/
theorem claim5_witness :
    0 < peakAbs (sineTestWave synth0 300 44100) ∧
    peakAbs (testNormalize (sineTestWave synth0 300 44100)) = 9/10 ∧
    AudioGen.testFrequency "gentle river sounds" 2 = 300 := by
  have h := claim5_test_scenario synth0 claim5_peak_pos
  exact ⟨claim5_peak_pos, h.2.2.2.2.2.2, h.1⟩
